import Mathlib

/-!
Verification development for the `mpvctrl` command multiplexer
(`src/mpvctrl.go`): a request/response multiplexer over a single duplex
connection to an mpv process.  The core state is `MPVClient`: the routing
table `i2c` (request id to response channel), a `sync.WaitGroup` counting
outstanding commands, a buffered read/writer over the connection, and a
pseudo-random generator for request ids.

The shallow embedding below models:
  * channels as entries of a store (`Chan`), each carrying the messages sent
    on it and a closed flag (a one-shot channel receives at most one line,
    then is closed);
  * the routing table as an association list of (request id, channel handle);
  * the WaitGroup as a natural counter `wg`;
  * the transport as the list of flushed lines `written`, with write/flush
    failures injected as parameters of `sendCommand`;
  * JSON field extraction (library `jsonparser`) abstractly: an incoming
    line carries the outcome of `GetString(dbt, "event")` and of
    `GetInt(dbt, "request_id")`;
  * the fire-and-forget delivery goroutine spawned by the reader loop as a
    task appended to `pending`, run by a separate scheduler step;
  * `log.Fatal` (process termination) as the flag `fatal`;
  * the interleaving of caller tasks, the reader loop, delivery goroutines
    and `Close` as the transition relation `Step`.
-/

/-- Outcome of extracting one field from a line of structured text, following
the `jsonparser` library interface used by the source: a value, the distinct
`KeyPathNotFoundError`, or any other (malformed-input) error. -/
inductive FieldGet (α : Type) where
  | ok (a : α)
  | keyPathNotFound
  | fail
deriving Repr, DecidableEq

/-- An incoming newline-terminated line `dbt` as seen by `inputMonitor`:
its raw bytes together with the outcomes of the two field extractions the
reader loop performs on it. -/
structure Line where
  raw : String
  event : FieldGet String
  requestId : FieldGet Int
deriving Repr, DecidableEq

/-- A one-shot response channel (`chan []byte` in the source): the messages
sent on it so far and whether it has been closed. -/
structure Chan where
  msgs : List String
  closed : Bool
deriving Repr, DecidableEq

/-- `make(chan []byte)`: a fresh channel, nothing sent, not closed. -/
def freshChan : Chan := ⟨[], false⟩

/-- Seeding of Go's deterministic generator `rand.NewSource(seed)` (external
library `math/rand`): the seed is reduced modulo the int32 maximum and a zero
seed is replaced by the fixed constant 89482311, as in the library's seeding
routine.  Only the deterministic structure of the generator matters to the
claims below: the state is a pure value determined by the seed. -/
def rngSeed (seed : Nat) : Nat :=
  let x := seed % 2147483647
  if x = 0 then 89482311 else x

/-- One state transition of the modelled generator (a multiplicative step
modulo the int32 maximum, as in the library's seeding recurrence).  The exact
lagged-Fibonacci output values of Go's generator are not reproduced; no claim
below depends on the particular values drawn, only on the step being a pure
function of the state. -/
def rngStep (x : Nat) : Nat := (48271 * x) % 2147483647

/-- The 32-bit value drawn from the current generator state
(`mc.rd.Uint32()` yields an unsigned 32-bit value). -/
def rngOut (x : Nat) : Nat := x % 4294967296

/-- Conversion `uint32(msgID)` applied by the reader loop to the extracted
`int64` request id: truncation to 32 bits (two's complement modulo 2^32). -/
def idToNat (i : Int) : Nat := (i % (4294967296 : Int)).toNat

/-- Lookup in the routing table `mc.i2c`, an association list from request
id to channel handle (`mc.i2c[uint32(msgID)]`). -/
def mapLookup (m : List (Nat × Nat)) (k : Nat) : Option Nat :=
  match m with
  | [] => none
  | (k2, v) :: rest => if k2 = k then some v else mapLookup rest k

/-- Insertion `mc.i2c[msgID] = ch` into the routing table: a Go map insert
overwrites any entry already present under the same key. -/
def mapInsert (m : List (Nat × Nat)) (k v : Nat) : List (Nat × Nat) :=
  (k, v) :: m.filter (fun p => p.1 ≠ k)

/-- The state of one `MPVClient` together with the process-level facts the
claims are about.

  * `rd`: the generator state (`mc.rd`).
  * `i2c`: the routing table, request id to channel handle.
  * `chans`: the channel store; a handle is an index into it.
  * `wg`: the `sync.WaitGroup` counter of outstanding commands.
  * `pending`: delivery goroutines spawned by the reader loop
    (`go func(msg) ... ch <- msg; close(ch)`) that have not yet run; each
    holds the target channel handle and the message.
  * `written`: the lines successfully written and flushed to the connection.
  * `events`: the notification sink (event name, raw line), from
    `log.Printf("We got event ...")`.
  * `readerAlive`: whether the `inputMonitor` goroutine is still looping.
  * `fatal`: whether the process was terminated by `log.Fatal`.
  * `connClosed`: whether `mc.nc.Close()` has run. -/
structure MPVState where
  rd : Nat
  i2c : List (Nat × Nat)
  chans : List Chan
  wg : Nat
  pending : List (Nat × String)
  written : List String
  events : List (String × String)
  readerAlive : Bool
  fatal : Bool
  connClosed : Bool
deriving Repr, DecidableEq

/-- The command templates of the source, each missing the closing bytes
since a request id is appended at send time (`JPC_PAUSE_TOGGLE_` and its
siblings). -/
def JPC_PAUSE_TOGGLE_ : String := "\x7b\"command\": [\"cycle\", \"pause\"]"

def JPC_PAUSE_ON : String := "\x7b\"command\": [\"set_property\", \"pause\", true]"

def JPC_PAUSE_OFF : String := "\x7b\"command\": [\"set_property\", \"pause\", false]"

def JPC_PLAYLIST_NEXT : String := "\x7b\"command\": [\"playlist-next\"]"

/-- The wire line produced by
`fmt.Sprintf("%s, \"request_id\": %d\x7d\n", cmd, msgID)`. -/
def wireLine (cmd : String) (msgID : Nat) : String :=
  cmd ++ ", \"request_id\": " ++ toString msgID ++ "\x7d\n"

/-- `NewMPVClient`: fresh read/writer over the dialed connection, generator
seeded with the constant 0 (`rand.New(rand.NewSource(0))`), empty routing
table, reader loop started. -/
def initState : MPVState :=
  { rd := rngSeed 0
    i2c := []
    chans := []
    wg := 0
    pending := []
    written := []
    events := []
    readerAlive := true
    fatal := false
    connClosed := false }

/-- `sendCommand(cmd)`: under the table lock, draw a fresh id from the
generator, format the wire line, write and flush it (failures of either are
injected through `wErr` and `fErr`); on failure return the error with no
further state mutation; on success create the one-shot channel, register it
in the routing table under the id, increment the WaitGroup, and return the
channel (the source returns `mc.i2c[msgID]`, the entry just registered).
The result is the returned channel handle or the error, paired with the
post-state. -/
def sendCommand (s : MPVState) (cmd : String) (wErr fErr : Option String) :
    Except String Nat × MPVState :=
  let msgID := rngOut s.rd
  let s0 : MPVState := { s with rd := rngStep s.rd }
  let ncmd := wireLine cmd msgID
  match wErr with
  | some e => (Except.error e, s0)
  | none =>
    match fErr with
    | some e => (Except.error e, s0)
    | none =>
      let h := s0.chans.length
      (Except.ok h,
        { s0 with
          written := s0.written ++ [ncmd]
          chans := s0.chans ++ [freshChan]
          i2c := mapInsert s0.i2c msgID h
          wg := s0.wg + 1 })

/-- The body of one `inputMonitor` iteration on a successfully read line
`dbt`, after `ReadBytes` returned it:

  * `GetString(dbt, "event")` failing with other than `KeyPathNotFoundError`
    is `log.Fatal` (process dies);
  * on `KeyPathNotFoundError` the line is a response: `GetInt(dbt,
    "request_id")` failing is `log.Fatal`; an id absent from the routing
    table is `log.Fatal` ("We haven't seen this ID before!"); otherwise a
    delivery goroutine for the found channel is spawned and `wg.Done()` runs.
    The routing table is not modified.
  * a present event name dispatches the line to the notification sink. -/
def processLine (s : MPVState) (l : Line) : MPVState :=
  match l.event with
  | FieldGet.fail => { s with fatal := true }
  | FieldGet.keyPathNotFound =>
    match l.requestId with
    | FieldGet.ok msgID =>
      match mapLookup s.i2c (idToNat msgID) with
      | some h =>
        { s with
          pending := s.pending ++ [(h, l.raw)]
          wg := s.wg - 1 }
      | none => { s with fatal := true }
    | FieldGet.keyPathNotFound => { s with fatal := true }
    | FieldGet.fail => { s with fatal := true }
  | FieldGet.ok ename => { s with events := s.events ++ [(ename, l.raw)] }

/-- What `ReadBytes` yields to the reader loop at each iteration: a full
line, end-of-stream (`io.EOF`), or another read error. -/
inductive ReadEvent where
  | line (l : Line)
  | eof
  | readErr (e : String)
deriving Repr

/-- The `inputMonitor` loop over a sequence of read outcomes: end-of-stream
or a read error breaks out of the loop (end-of-stream silently, other errors
after logging); a line is processed by the loop body; `log.Fatal` inside the
body ends the process, so nothing further is read. -/
def inputMonitor (s : MPVState) : List ReadEvent → MPVState
  | [] => s
  | ReadEvent.eof :: _ => { s with readerAlive := false }
  | ReadEvent.readErr _ :: _ => { s with readerAlive := false }
  | ReadEvent.line l :: rest =>
    let s2 := processLine s l
    if s2.fatal then s2 else inputMonitor s2 rest

/-- One spawned delivery goroutine (`ch <- msg; close(ch)`) running: the
message is sent on the channel and the channel is closed. -/
def deliverTo (cs : List Chan) (h : Nat) (msg : String) : List Chan :=
  match cs[h]? with
  | some c => cs.set h { msgs := c.msgs ++ [msg], closed := true }
  | none => cs

/-- The scheduler running the `i`-th not-yet-run delivery goroutine. -/
def runDelivery (s : MPVState) (i : Nat) : MPVState :=
  match s.pending[i]? with
  | some hv =>
    { s with
      pending := s.pending.eraseIdx i
      chans := deliverTo s.chans hv.1 hv.2 }
  | none => s

/-- The interleaving semantics of the whole client: caller tasks issuing
`sendCommand` (the table lock makes each call one atomic step), the reader
loop reading one line / hitting end-of-stream / hitting a read error,
spawned delivery goroutines running in any order, and `Close` completing.
`Close` runs `mc.wg.Wait()` and then `mc.nc.Close()`: its completion step
carries the guard `wg = 0`, since `Wait` blocks until the counter is zero.
No step is possible once `log.Fatal` has ended the process; the reader
steps need the loop still alive, and a new line can only arrive while the
connection is open. -/
inductive Step : MPVState → MPVState → Prop where
  | send (cmd : String) (wErr fErr : Option String) (s : MPVState) :
      s.fatal = false → Step s (sendCommand s cmd wErr fErr).2
  | readLine (l : Line) (s : MPVState) :
      s.fatal = false → s.readerAlive = true → s.connClosed = false →
      Step s (processLine s l)
  | readEof (s : MPVState) :
      s.fatal = false → s.readerAlive = true →
      Step s { s with readerAlive := false }
  | readFail (e : String) (s : MPVState) :
      s.fatal = false → s.readerAlive = true →
      Step s { s with readerAlive := false }
  | deliver (i : Nat) (s : MPVState) :
      s.fatal = false → i < s.pending.length → Step s (runDelivery s i)
  | closeFinish (s : MPVState) :
      s.fatal = false → s.wg = 0 → Step s { s with connClosed := true }

/-- The states the client can be in after construction. -/
def Reachable (s : MPVState) : Prop :=
  Relation.ReflTransGen Step initState s

/-- One `sendCommand` call as issued by a caller task: the template and the
injected write/flush outcomes. -/
structure SendCall where
  cmd : String
  wErr : Option String
  fErr : Option String

/-- A sequence of `sendCommand` calls performed on a client. -/
def runSends : MPVState → List SendCall → MPVState
  | s, [] => s
  | s, c :: rest => runSends (sendCommand s c.cmd c.wErr c.fErr).2 rest

/-- Concrete post-send state: one successful `sendCommand` of the
pause-toggle template on a fresh client.  The drawn identifier is 89482311
(the modelled generator seeded with 0), the registered channel has handle
0, and the WaitGroup counter is 1. -/
def exSendState : MPVState := (sendCommand initState JPC_PAUSE_TOGGLE_ none none).2

/-- Concrete response line matching the outstanding identifier of
`exSendState`. -/
def exRespLine : Line :=
  { raw := "\x7b\"request_id\": 89482311, \"error\": \"success\"\x7d\n"
    event := FieldGet.keyPathNotFound
    requestId := FieldGet.ok 89482311 }

/-- Concrete notification line used to show the loop does not reach the
next read after a fatal condition. -/
def exNotifLine : Line :=
  { raw := "\x7b\"event\": \"pause\"\x7d\n"
    event := FieldGet.ok "pause"
    requestId := FieldGet.keyPathNotFound }

/-- A response line whose identifier 5 is unknown to a fresh client. -/
def exUnknownLine : Line :=
  { raw := "\x7b\"request_id\": 5, \"error\": \"success\"\x7d\n"
    event := FieldGet.keyPathNotFound
    requestId := FieldGet.ok 5 }

/-- The table-shape invariant of the amended C4: every identifier has
exactly one entry (keys are pairwise distinct) and every registered handle
denotes a channel of the store. -/
def TableInv (s : MPVState) : Prop :=
  (s.i2c.map Prod.fst).Nodup ∧ ∀ p ∈ s.i2c, p.2 < s.chans.length

/-- Concrete state in which `Close` has completed right after the reader
processed the only outstanding response, while the spawned delivery
goroutine has not yet run: the WaitGroup hit zero at `wg.Done()`, so
`wg.Wait()` returned and the connection was closed. -/
def exClosedState : MPVState :=
  { processLine exSendState exRespLine with connClosed := true }

/-- The state after the peer closes the connection (end-of-stream) while
the single sent command is still outstanding: the reader loop has exited,
nothing is pending, the WaitGroup counter is stuck at 1. -/
def exEofState : MPVState := { exSendState with readerAlive := false }

/-- The configuration from which `Close` can never complete: reader gone,
no spawned deliveries, at least one outstanding command, connection open. -/
def EofStuck (s : MPVState) : Prop :=
  s.readerAlive = false ∧ s.pending = [] ∧ 1 ≤ s.wg ∧ s.connClosed = false

/-! Effect lemmas for `sendCommand`: fields it never touches, and its
generator step, by cases on the injected write/flush failures. -/

theorem sendCommand_rd (s : MPVState) (cmd : String) (w f : Option String) :
    (sendCommand s cmd w f).2.rd = rngStep s.rd := by
  cases w <;> cases f <;> simp [sendCommand]

theorem sendCommand_readerAlive (s : MPVState) (cmd : String) (w f : Option String) :
    (sendCommand s cmd w f).2.readerAlive = s.readerAlive := by
  cases w <;> cases f <;> simp [sendCommand]

theorem sendCommand_fatal (s : MPVState) (cmd : String) (w f : Option String) :
    (sendCommand s cmd w f).2.fatal = s.fatal := by
  cases w <;> cases f <;> simp [sendCommand]

theorem sendCommand_connClosed (s : MPVState) (cmd : String) (w f : Option String) :
    (sendCommand s cmd w f).2.connClosed = s.connClosed := by
  cases w <;> cases f <;> simp [sendCommand]

theorem sendCommand_pending (s : MPVState) (cmd : String) (w f : Option String) :
    (sendCommand s cmd w f).2.pending = s.pending := by
  cases w <;> cases f <;> simp [sendCommand]

theorem sendCommand_wg_ge (s : MPVState) (cmd : String) (w f : Option String) :
    s.wg ≤ (sendCommand s cmd w f).2.wg := by
  cases w <;> cases f <;> simp [sendCommand]

/-- `sendCommand` leaves the table and channel store alone on failure, and
performs the registration on success (disjunctive shape used by the
invariant proofs). -/
theorem sendCommand_i2c_chans (s : MPVState) (cmd : String) (w f : Option String) :
    ((sendCommand s cmd w f).2.i2c = s.i2c ∧ (sendCommand s cmd w f).2.chans = s.chans) ∨
    ((sendCommand s cmd w f).2.i2c = mapInsert s.i2c (rngOut s.rd) s.chans.length ∧
      (sendCommand s cmd w f).2.chans = s.chans ++ [freshChan]) := by
  cases w <;> cases f <;> simp [sendCommand]

/-! Effect lemmas for `processLine` and `runDelivery`. -/

theorem processLine_i2c (s : MPVState) (l : Line) :
    (processLine s l).i2c = s.i2c := by
  cases hev : l.event with
  | fail => simp [processLine, hev]
  | ok ename => simp [processLine, hev]
  | keyPathNotFound =>
    cases hreq : l.requestId with
    | fail => simp [processLine, hev, hreq]
    | keyPathNotFound => simp [processLine, hev, hreq]
    | ok msgID =>
      cases hm : mapLookup s.i2c (idToNat msgID) <;>
        simp [processLine, hev, hreq, hm]

theorem processLine_chans (s : MPVState) (l : Line) :
    (processLine s l).chans = s.chans := by
  cases hev : l.event with
  | fail => simp [processLine, hev]
  | ok ename => simp [processLine, hev]
  | keyPathNotFound =>
    cases hreq : l.requestId with
    | fail => simp [processLine, hev, hreq]
    | keyPathNotFound => simp [processLine, hev, hreq]
    | ok msgID =>
      cases hm : mapLookup s.i2c (idToNat msgID) <;>
        simp [processLine, hev, hreq, hm]

theorem processLine_connClosed (s : MPVState) (l : Line) :
    (processLine s l).connClosed = s.connClosed := by
  cases hev : l.event with
  | fail => simp [processLine, hev]
  | ok ename => simp [processLine, hev]
  | keyPathNotFound =>
    cases hreq : l.requestId with
    | fail => simp [processLine, hev, hreq]
    | keyPathNotFound => simp [processLine, hev, hreq]
    | ok msgID =>
      cases hm : mapLookup s.i2c (idToNat msgID) <;>
        simp [processLine, hev, hreq, hm]

theorem runDelivery_i2c (s : MPVState) (i : Nat) :
    (runDelivery s i).i2c = s.i2c := by
  cases hm : s.pending[i]? <;> simp [runDelivery, hm]

theorem runDelivery_connClosed (s : MPVState) (i : Nat) :
    (runDelivery s i).connClosed = s.connClosed := by
  cases hm : s.pending[i]? <;> simp [runDelivery, hm]

theorem runDelivery_wg (s : MPVState) (i : Nat) :
    (runDelivery s i).wg = s.wg := by
  cases hm : s.pending[i]? <;> simp [runDelivery, hm]

theorem runDelivery_readerAlive (s : MPVState) (i : Nat) :
    (runDelivery s i).readerAlive = s.readerAlive := by
  cases hm : s.pending[i]? <;> simp [runDelivery, hm]

theorem deliverTo_length (cs : List Chan) (h : Nat) (msg : String) :
    (deliverTo cs h msg).length = cs.length := by
  cases hm : cs[h]? <;> simp [deliverTo, hm]

/-- Claim C2: when the transport write or the flush fails, `sendCommand`
returns that error and mutates no routing state: the table, the channel
store, the WaitGroup counter and the flushed-line log are all unchanged, so
the drawn identifier is never registered and no channel is created. -/
theorem c2_send_failure_no_mutation (s : MPVState) (cmd : String)
    (wErr fErr : Option String) (e : String)
    (hfail : wErr = some e ∨ (wErr = none ∧ fErr = some e)) :
    (sendCommand s cmd wErr fErr).1 = Except.error e ∧
    (sendCommand s cmd wErr fErr).2.i2c = s.i2c ∧
    (sendCommand s cmd wErr fErr).2.chans = s.chans ∧
    (sendCommand s cmd wErr fErr).2.wg = s.wg ∧
    (sendCommand s cmd wErr fErr).2.written = s.written := by
  rcases hfail with h | ⟨h1, h2⟩
  · subst h; simp [sendCommand]
  · subst h1; subst h2; simp [sendCommand]

/-- Witness for C2 at a concrete failing write. -/
theorem c2_send_failure_no_mutation_witness :
    ((some "broken pipe" : Option String) = some "broken pipe" ∨
      ((some "broken pipe" : Option String) = none ∧
        (none : Option String) = some "broken pipe")) ∧
    ((sendCommand initState JPC_PAUSE_TOGGLE_ (some "broken pipe") none).1 =
        Except.error "broken pipe" ∧
      (sendCommand initState JPC_PAUSE_TOGGLE_ (some "broken pipe") none).2.i2c =
        initState.i2c ∧
      (sendCommand initState JPC_PAUSE_TOGGLE_ (some "broken pipe") none).2.chans =
        initState.chans ∧
      (sendCommand initState JPC_PAUSE_TOGGLE_ (some "broken pipe") none).2.wg =
        initState.wg ∧
      (sendCommand initState JPC_PAUSE_TOGGLE_ (some "broken pipe") none).2.written =
        initState.written) :=
  ⟨Or.inl rfl,
    c2_send_failure_no_mutation initState JPC_PAUSE_TOGGLE_
      (some "broken pipe") none "broken pipe" (Or.inl rfl)⟩

/-- Claim C3: when write and flush both succeed, `sendCommand` registers a
fresh one-shot channel (created empty and open) in the table under the drawn
identifier, increments the WaitGroup counter by exactly one, and returns
that same channel: the returned handle is the one the table now maps the
identifier to. -/
theorem c3_send_success_registers (s : MPVState) (cmd : String) :
    (sendCommand s cmd none none).1 = Except.ok s.chans.length ∧
    (sendCommand s cmd none none).2.i2c =
      mapInsert s.i2c (rngOut s.rd) s.chans.length ∧
    mapLookup (sendCommand s cmd none none).2.i2c (rngOut s.rd) =
      some s.chans.length ∧
    (sendCommand s cmd none none).2.chans[s.chans.length]? = some freshChan ∧
    (sendCommand s cmd none none).2.wg = s.wg + 1 := by
  refine ⟨by simp [sendCommand], by simp [sendCommand], ?_, ?_, by simp [sendCommand]⟩
  · simp [sendCommand, mapInsert, mapLookup]
  · simp [sendCommand, List.getElem?_concat_length]

/-- Claim C8: a notification line (event field present) only appends to the
notification sink, keyed by the event name; the table, the channel store,
the pending deliveries and the WaitGroup counter are untouched, so no
command's channel is resolved. -/
theorem c8_notification_leaves_table (s : MPVState) (l : Line) (ename : String)
    (hev : l.event = FieldGet.ok ename) :
    (processLine s l).i2c = s.i2c ∧
    (processLine s l).chans = s.chans ∧
    (processLine s l).pending = s.pending ∧
    (processLine s l).wg = s.wg ∧
    (processLine s l).events = s.events ++ [(ename, l.raw)] := by
  simp [processLine, hev]

/-- Witness for C8 at a concrete notification line. -/
theorem c8_notification_leaves_table_witness :
    ({ raw := "\x7b\"event\": \"pause\"\x7d\n", event := FieldGet.ok "pause",
        requestId := FieldGet.keyPathNotFound } : Line).event =
      FieldGet.ok "pause" ∧
    ((processLine initState
        { raw := "\x7b\"event\": \"pause\"\x7d\n", event := FieldGet.ok "pause",
          requestId := FieldGet.keyPathNotFound }).i2c = initState.i2c ∧
      (processLine initState
        { raw := "\x7b\"event\": \"pause\"\x7d\n", event := FieldGet.ok "pause",
          requestId := FieldGet.keyPathNotFound }).chans = initState.chans ∧
      (processLine initState
        { raw := "\x7b\"event\": \"pause\"\x7d\n", event := FieldGet.ok "pause",
          requestId := FieldGet.keyPathNotFound }).pending = initState.pending ∧
      (processLine initState
        { raw := "\x7b\"event\": \"pause\"\x7d\n", event := FieldGet.ok "pause",
          requestId := FieldGet.keyPathNotFound }).wg = initState.wg ∧
      (processLine initState
        { raw := "\x7b\"event\": \"pause\"\x7d\n", event := FieldGet.ok "pause",
          requestId := FieldGet.keyPathNotFound }).events =
        initState.events ++ [("pause", "\x7b\"event\": \"pause\"\x7d\n")]) :=
  ⟨rfl,
    c8_notification_leaves_table initState
      { raw := "\x7b\"event\": \"pause\"\x7d\n", event := FieldGet.ok "pause",
        requestId := FieldGet.keyPathNotFound } "pause" rfl⟩

/-- Claim C9: the wire line is the command template with
`, "request_id": <id>` and the closing brace plus newline appended; with the
generator about to assign identifier 7, sending pause-toggle flushes exactly
the line of the spec's first end-to-end scenario. -/
theorem c9_pause_toggle_wire (s : MPVState) (h7 : rngOut s.rd = 7) :
    (∀ cmd : String,
      (sendCommand s cmd none none).2.written =
        s.written ++ [cmd ++ ", \"request_id\": " ++ toString (rngOut s.rd) ++ "\x7d\n"]) ∧
    (sendCommand s JPC_PAUSE_TOGGLE_ none none).2.written =
      s.written ++
        ["\x7b\"command\": [\"cycle\", \"pause\"], \"request_id\": 7\x7d\n"] := by
  constructor
  · intro cmd
    simp [sendCommand, wireLine]
  · simp [sendCommand, wireLine, h7]
    rw [show (JPC_PAUSE_TOGGLE_ ++ ", \"request_id\": " ++ toString 7 ++ "\x7d\n") =
      "\x7b\"command\": [\"cycle\", \"pause\"], \"request_id\": 7\x7d\n" from by decide]

/-- Witness for C9 at a concrete generator state whose next draw is 7. -/
theorem c9_pause_toggle_wire_witness :
    rngOut ({ initState with rd := 7 } : MPVState).rd = 7 ∧
    ((∀ cmd : String,
      (sendCommand { initState with rd := 7 } cmd none none).2.written =
        ({ initState with rd := 7 } : MPVState).written ++
          [cmd ++ ", \"request_id\": " ++
            toString (rngOut ({ initState with rd := 7 } : MPVState).rd) ++ "\x7d\n"]) ∧
    (sendCommand { initState with rd := 7 } JPC_PAUSE_TOGGLE_ none none).2.written =
      ({ initState with rd := 7 } : MPVState).written ++
        ["\x7b\"command\": [\"cycle\", \"pause\"], \"request_id\": 7\x7d\n"]) :=
  ⟨by decide, c9_pause_toggle_wire { initState with rd := 7 } (by decide)⟩

/-- Helper for C10: the generator state after a sequence of sends depends
only on its initial value and the number of calls, since every call steps
the generator exactly once regardless of its arguments and outcome. -/
theorem runSends_rd_eq (c1 : List SendCall) :
    ∀ c2 : List SendCall, c1.length = c2.length →
      ∀ s1 s2 : MPVState, s1.rd = s2.rd →
        (runSends s1 c1).rd = (runSends s2 c2).rd := by
  induction c1 with
  | nil =>
    intro c2 hlen s1 s2 h12
    cases c2 with
    | nil => simpa [runSends] using h12
    | cons b t2 => simp at hlen
  | cons a t ih =>
    intro c2 hlen s1 s2 h12
    cases c2 with
    | nil => simp at hlen
    | cons b t2 =>
      refine ih t2 (by simpa using hlen) _ _ ?_
      rw [sendCommand_rd, sendCommand_rd, h12]

/-- Claim C10: the generator is seeded with the constant 0 at construction,
so identifier assignment is deterministic: after any two equal-length call
histories on two freshly constructed clients, both generators are in the
same state and the next `sendCommand` draws the same identifier in both. -/
theorem c10_deterministic_ids (c1 c2 : List SendCall)
    (hlen : c1.length = c2.length) :
    initState.rd = rngSeed 0 ∧
    (runSends initState c1).rd = (runSends initState c2).rd ∧
    rngOut (runSends initState c1).rd = rngOut (runSends initState c2).rd := by
  have h := runSends_rd_eq c1 c2 hlen initState initState rfl
  exact ⟨rfl, h, by rw [h]⟩

/-- Witness for C10: two different single-call histories (one succeeding,
one failing to write) still leave the generators in agreement. -/
theorem c10_deterministic_ids_witness :
    ([⟨JPC_PAUSE_ON, none, none⟩] : List SendCall).length =
      ([⟨JPC_PLAYLIST_NEXT, some "broken pipe", none⟩] : List SendCall).length ∧
    (initState.rd = rngSeed 0 ∧
      (runSends initState [⟨JPC_PAUSE_ON, none, none⟩]).rd =
        (runSends initState [⟨JPC_PLAYLIST_NEXT, some "broken pipe", none⟩]).rd ∧
      rngOut (runSends initState [⟨JPC_PAUSE_ON, none, none⟩]).rd =
        rngOut (runSends initState [⟨JPC_PLAYLIST_NEXT, some "broken pipe", none⟩]).rd) :=
  ⟨rfl, c10_deterministic_ids [⟨JPC_PAUSE_ON, none, none⟩]
    [⟨JPC_PLAYLIST_NEXT, some "broken pipe", none⟩] rfl⟩

/-- Helper: running a spawned delivery against a channel present in the
store sends the message on that channel and closes it. -/
theorem deliverTo_found (cs : List Chan) (h : Nat) (msg : String) (c : Chan)
    (hc : cs[h]? = some c) :
    (deliverTo cs h msg)[h]? = some { msgs := c.msgs ++ [msg], closed := true } := by
  have hlt : h < cs.length := by
    rcases List.getElem?_eq_some.mp hc with ⟨hlt, _⟩
    exact hlt
  simp only [deliverTo, hc]
  exact List.getElem?_set_eq_of_lt _ hlt

/-- Claim C1 as stated is false: after the reader loop processes a matching
response, the identifier is still present in the routing table — the loop
never deletes the entry (`delete(mc.i2c, ...)` does not occur in the
source).  Concretely: in the reachable one-command state, processing the
matching response leaves the identifier mapped exactly as before. -/
theorem c1_entry_not_removed_counterexample :
    Reachable exSendState ∧
    mapLookup exSendState.i2c 89482311 = some 0 ∧
    mapLookup (processLine exSendState exRespLine).i2c 89482311 = some 0 ∧
    ¬ mapLookup (processLine exSendState exRespLine).i2c 89482311 = none := by
  refine ⟨Relation.ReflTransGen.single ?_, by decide, by decide, by decide⟩
  exact Step.send JPC_PAUSE_TOGGLE_ none none initState rfl

/-- Claim C1 amended: on a response whose identifier is in the table, the
reader loop spawns a delivery goroutine for the full line (which, when it
runs, sends the line on that identifier's channel and closes it) and
decrements the outstanding-count; the table entry is NOT removed — the
identifier is still present in the table after processing. -/
theorem c1_response_delivery (s : MPVState) (l : Line) (msgID : Int)
    (h : Nat × Chan)
    (hev : l.event = FieldGet.keyPathNotFound)
    (hreq : l.requestId = FieldGet.ok msgID)
    (hlook : mapLookup s.i2c (idToNat msgID) = some h.1)
    (hch : s.chans[h.1]? = some h.2) :
    processLine s l =
      { s with pending := s.pending ++ [(h.1, l.raw)], wg := s.wg - 1 } ∧
    mapLookup (processLine s l).i2c (idToNat msgID) = some h.1 ∧
    (runDelivery (processLine s l) s.pending.length).chans[h.1]? =
      some { msgs := h.2.msgs ++ [l.raw], closed := true } := by
  have hpl : processLine s l =
      { s with pending := s.pending ++ [(h.1, l.raw)], wg := s.wg - 1 } := by
    simp [processLine, hev, hreq, hlook]
  refine ⟨hpl, by rw [hpl]; exact hlook, ?_⟩
  rw [hpl]
  have hget : (s.pending ++ [(h.1, l.raw)])[s.pending.length]? = some (h.1, l.raw) :=
    List.getElem?_concat_length _ _
  simp only [runDelivery, hget]
  exact deliverTo_found s.chans h.1 l.raw h.2 hch

/-- Witness for the amended C1 at the concrete one-command state. -/
theorem c1_response_delivery_witness :
    (exRespLine.event = FieldGet.keyPathNotFound ∧
      exRespLine.requestId = FieldGet.ok 89482311 ∧
      mapLookup exSendState.i2c (idToNat 89482311) = some (0, freshChan).1 ∧
      exSendState.chans[(0, freshChan).1]? = some (0, freshChan).2) ∧
    (processLine exSendState exRespLine =
      { exSendState with
          pending := exSendState.pending ++ [((0, freshChan).1, exRespLine.raw)]
          wg := exSendState.wg - 1 } ∧
    mapLookup (processLine exSendState exRespLine).i2c (idToNat 89482311) =
      some (0, freshChan).1 ∧
    (runDelivery (processLine exSendState exRespLine)
        exSendState.pending.length).chans[(0, freshChan).1]? =
      some { msgs := freshChan.msgs ++ [exRespLine.raw], closed := true }) :=
  ⟨⟨rfl, rfl, by decide, by decide⟩,
    c1_response_delivery exSendState exRespLine 89482311 (0, freshChan)
      rfl rfl (by decide) (by decide)⟩

/-- Claim C7 as stated is false: on a response line whose identifier is not
in the table, the reader loop calls `log.Fatal("We haven't seen this ID
before!")`, which terminates the process; the loop does not continue to the
next read (a notification following the unknown response is never
dispatched). -/
theorem c7_unknown_id_crashes_counterexample :
    mapLookup initState.i2c (idToNat 5) = none ∧
    (processLine initState exUnknownLine).fatal = true ∧
    (inputMonitor initState [ReadEvent.line exUnknownLine,
        ReadEvent.line exNotifLine]).events = [] ∧
    ¬ ((processLine initState exUnknownLine).fatal = false ∧
        processLine initState exUnknownLine = initState) := by
  refine ⟨by decide, by decide, by decide, ?_⟩
  intro hcl
  exact absurd hcl.1 (by decide)

/-- Claim C7 amended: on a response line with an unknown identifier the
reference behavior is fatal — the process is terminated by `log.Fatal` and
nothing else changes: the line is delivered to no channel and the table,
store, counter and sink are left as they were. -/
theorem c7_unknown_id_fatal (s : MPVState) (l : Line) (msgID : Int)
    (hev : l.event = FieldGet.keyPathNotFound)
    (hreq : l.requestId = FieldGet.ok msgID)
    (hlook : mapLookup s.i2c (idToNat msgID) = none) :
    processLine s l = { s with fatal := true } := by
  simp [processLine, hev, hreq, hlook]

/-- Witness for the amended C7 at a fresh client and unknown identifier 5. -/
theorem c7_unknown_id_fatal_witness :
    (exUnknownLine.event = FieldGet.keyPathNotFound ∧
      exUnknownLine.requestId = FieldGet.ok 5 ∧
      mapLookup initState.i2c (idToNat 5) = none) ∧
    processLine initState exUnknownLine = { initState with fatal := true } :=
  ⟨⟨rfl, rfl, by decide⟩,
    c7_unknown_id_fatal initState exUnknownLine 5 rfl rfl (by decide)⟩

theorem mapInsert_keys_nodup (m : List (Nat × Nat)) (k v : Nat)
    (hm : (m.map Prod.fst).Nodup) :
    ((mapInsert m k v).map Prod.fst).Nodup := by
  simp only [mapInsert, List.map_cons, List.nodup_cons]
  refine ⟨?_, ?_⟩
  · intro hmem
    rcases List.mem_map.mp hmem with ⟨p, hp, hpk⟩
    have h2 : p.1 ≠ k := by simpa using (List.mem_filter.mp hp).2
    exact h2 hpk
  · exact ((List.filter_sublist m).map Prod.fst).nodup hm

theorem mem_mapInsert (m : List (Nat × Nat)) (k v : Nat) (p : Nat × Nat)
    (hp : p ∈ mapInsert m k v) : p = (k, v) ∨ p ∈ m := by
  rcases List.mem_cons.mp hp with h | h
  · exact Or.inl h
  · exact Or.inr (List.mem_filter.mp h).1

theorem runDelivery_chans_length (s : MPVState) (i : Nat) :
    (runDelivery s i).chans.length = s.chans.length := by
  cases hm : s.pending[i]? <;> simp [runDelivery, hm, deliverTo_length]

/-- Every step of the system preserves the table-shape invariant. -/
theorem step_tableInv (s s2 : MPVState) (hstep : Step s s2) (h : TableInv s) :
    TableInv s2 := by
  obtain ⟨h1, h2⟩ := h
  cases hstep with
  | send cmd w f s hf =>
    rcases sendCommand_i2c_chans s cmd w f with ⟨hi, hc⟩ | ⟨hi, hc⟩
    · refine ⟨by rw [hi]; exact h1, ?_⟩
      intro p hp
      rw [hc]
      exact h2 p (by rwa [hi] at hp)
    · refine ⟨by rw [hi]; exact mapInsert_keys_nodup _ _ _ h1, ?_⟩
      intro p hp
      rw [hi] at hp
      rw [hc]
      rcases mem_mapInsert _ _ _ _ hp with hcase | hcase
      · rw [hcase]
        simp
      · have := h2 p hcase
        simp only [List.length_append, List.length_cons, List.length_nil]
        omega
  | readLine l s hf ha hc =>
    refine ⟨by rw [processLine_i2c]; exact h1, ?_⟩
    intro p hp
    rw [processLine_chans]
    exact h2 p (by rwa [processLine_i2c] at hp)
  | readEof s hf ha => exact ⟨h1, h2⟩
  | readFail e s hf ha => exact ⟨h1, h2⟩
  | deliver i s hf hi =>
    refine ⟨by rw [runDelivery_i2c]; exact h1, ?_⟩
    intro p hp
    rw [runDelivery_chans_length]
    exact h2 p (by rwa [runDelivery_i2c] at hp)
  | closeFinish s hf hw => exact ⟨h1, h2⟩

/-- Claim C4 as stated is false: the table can hold an identifier whose
command has already been resolved, because the reader loop never removes
entries.  In the reachable state reached by one send, its matching
response, and the delivery goroutine running, identifier 89482311 is still
in the table while its channel is already closed — so not every table
identifier corresponds to a command still awaiting a response. -/
theorem c4_stale_entry_counterexample :
    ¬ (∀ s : MPVState, Reachable s → ∀ p ∈ s.i2c,
        ∃ c, s.chans[p.2]? = some c ∧ c.closed = false) := by
  intro hcl
  have h1 : Step initState exSendState :=
    Step.send JPC_PAUSE_TOGGLE_ none none initState rfl
  have h2 : Step exSendState (processLine exSendState exRespLine) :=
    Step.readLine exRespLine exSendState (by decide) (by decide) (by decide)
  have h3 : Step (processLine exSendState exRespLine)
      (runDelivery (processLine exSendState exRespLine) 0) :=
    Step.deliver 0 (processLine exSendState exRespLine) (by decide) (by decide)
  have hr : Reachable (runDelivery (processLine exSendState exRespLine) 0) :=
    ((Relation.ReflTransGen.single h1).tail h2).tail h3
  have hmem : ((89482311 : Nat), (0 : Nat)) ∈
      (runDelivery (processLine exSendState exRespLine) 0).i2c := by decide
  rcases hcl _ hr (89482311, 0) hmem with ⟨c, hc1, hc2⟩
  have hval : (runDelivery (processLine exSendState exRespLine) 0).chans[(0 : Nat)]? =
      some (Chan.mk [exRespLine.raw] true) := by decide
  have hcy : c = Chan.mk [exRespLine.raw] true := Option.some.inj (hc1.symm.trans hval)
  rw [hcy] at hc2
  exact absurd hc2 (by decide)

/-- Claim C4 amended: in every reachable state each identifier present in
the table has exactly one entry, mapping to exactly one channel of the
store (the keys are pairwise distinct and every handle is valid); entries
are however not removed when a command is resolved, so an identifier can
outlive its command, and a fresh identifier colliding with a stale one
overwrites that entry. -/
theorem c4_table_entries_unique (s : MPVState) (hs : Reachable s) :
    TableInv s := by
  unfold Reachable at hs
  induction hs with
  | refl => exact ⟨by simp [initState], by simp [initState]⟩
  | tail hab hbc ih => exact step_tableInv _ _ hbc ih

/-- Witness for the amended C4 at the construction state. -/
theorem c4_table_entries_unique_witness :
    Reachable initState ∧ TableInv initState :=
  ⟨Relation.ReflTransGen.refl,
    c4_table_entries_unique initState Relation.ReflTransGen.refl⟩

/-- Claim C5 as stated is false in its final clause: a response can still be
delivered to its channel after `Close` has returned, because the reader
delivers through a fire-and-forget goroutine spawned before `wg.Done()`.
Concretely: `exClosedState` is reachable with the connection already
closed and channel 0 still empty and open, yet the spawned delivery
goroutine can still run as a further step and it then delivers the
response line to channel 0 and closes it. -/
theorem c5_delivery_after_close_counterexample :
    Reachable exClosedState ∧
    exClosedState.connClosed = true ∧
    exClosedState.chans[(0 : Nat)]? = some freshChan ∧
    Step exClosedState (runDelivery exClosedState 0) ∧
    (runDelivery exClosedState 0).chans[(0 : Nat)]? =
      some (Chan.mk [exRespLine.raw] true) ∧
    (runDelivery exClosedState 0).connClosed = true := by
  have h1 : Step initState exSendState :=
    Step.send JPC_PAUSE_TOGGLE_ none none initState rfl
  have h2 : Step exSendState (processLine exSendState exRespLine) :=
    Step.readLine exRespLine exSendState (by decide) (by decide) (by decide)
  have h3 : Step (processLine exSendState exRespLine) exClosedState :=
    Step.closeFinish (processLine exSendState exRespLine) (by decide) (by decide)
  exact ⟨((Relation.ReflTransGen.single h1).tail h2).tail h3, by decide, by decide,
    Step.deliver 0 exClosedState (by decide) (by decide), by decide, by decide⟩

/-- Claim C5 amended: `Close` never closes the connection while the
outstanding-count is positive — the only step that closes the connection
carries the guard that the WaitGroup counter is zero, since `wg.Wait()`
blocks until then; after it the connection is closed.  (Responses whose
spawned delivery goroutine has not yet run may however still be delivered
to their channels after `Close` returns.) -/
theorem c5_close_only_at_zero (s s2 : MPVState) (hstep : Step s s2)
    (hopen : s.connClosed = false) (hclosed : s2.connClosed = true) :
    s.wg = 0 ∧ s2.connClosed = true := by
  cases hstep with
  | send cmd w f s hf =>
    rw [sendCommand_connClosed, hopen] at hclosed
    exact absurd hclosed (by decide)
  | readLine l s hf ha hc =>
    rw [processLine_connClosed, hopen] at hclosed
    exact absurd hclosed (by decide)
  | readEof s hf ha =>
    have hx : s.connClosed = true := hclosed
    rw [hopen] at hx
    exact absurd hx (by decide)
  | readFail e s hf ha =>
    have hx : s.connClosed = true := hclosed
    rw [hopen] at hx
    exact absurd hx (by decide)
  | deliver i s hf hi =>
    rw [runDelivery_connClosed, hopen] at hclosed
    exact absurd hclosed (by decide)
  | closeFinish s hf hw => exact ⟨hw, hclosed⟩

/-- Witness for the amended C5: `Close` completing on a fresh client with
no outstanding commands. -/
theorem c5_close_only_at_zero_witness :
    Step initState { initState with connClosed := true } ∧
    initState.connClosed = false ∧
    ({ initState with connClosed := true } : MPVState).connClosed = true ∧
    (initState.wg = 0 ∧
      ({ initState with connClosed := true } : MPVState).connClosed = true) :=
  ⟨Step.closeFinish initState rfl rfl, rfl, rfl,
    c5_close_only_at_zero initState { initState with connClosed := true }
      (Step.closeFinish initState rfl rfl) rfl rfl⟩

/-- `EofStuck` is preserved by every step: with the reader gone nothing can
ever decrement the WaitGroup counter, and `Close` cannot complete. -/
theorem eofStuck_step (s s2 : MPVState) (hstep : Step s s2) (h : EofStuck s) :
    EofStuck s2 := by
  obtain ⟨ha, hp, hw, hc⟩ := h
  cases hstep with
  | send cmd w f s hf =>
    refine ⟨?_, ?_, ?_, ?_⟩
    · rw [sendCommand_readerAlive]; exact ha
    · rw [sendCommand_pending]; exact hp
    · exact le_trans hw (sendCommand_wg_ge s cmd w f)
    · rw [sendCommand_connClosed]; exact hc
  | readLine l s hf halive hcn =>
    rw [ha] at halive
    exact absurd halive (by decide)
  | readEof s hf halive =>
    rw [ha] at halive
    exact absurd halive (by decide)
  | readFail e s hf halive =>
    rw [ha] at halive
    exact absurd halive (by decide)
  | deliver i s hf hi =>
    rw [hp] at hi
    exact absurd hi (by simp)
  | closeFinish s hf hw0 =>
    rw [hw0] at hw
    exact absurd hw (by decide)

/-- From `exEofState`, every reachable state is still stuck. -/
theorem eofStuck_reachable (s2 : MPVState)
    (h : Relation.ReflTransGen Step exEofState s2) : EofStuck s2 := by
  induction h with
  | refl => exact ⟨rfl, by decide, by decide, rfl⟩
  | tail hab hbc ih => exact eofStuck_step _ _ hbc ih

/-- Claim C6 as stated is false in its second half.  The state after one
successful send followed by end-of-stream is reachable, the reader loop has
exited cleanly (no fatal condition) with the command still outstanding —
but `Close` can never return: no state reachable from there ever has the
connection closed, because the exited reader can never resolve the
outstanding command and `wg.Wait()` therefore never unblocks. -/
theorem c6_close_after_eof_hangs_counterexample :
    Reachable exEofState ∧
    exEofState.readerAlive = false ∧
    exEofState.fatal = false ∧
    exEofState.wg = 1 ∧
    ¬ ∃ s2, Relation.ReflTransGen Step exEofState s2 ∧ s2.connClosed = true := by
  refine ⟨?_, rfl, by decide, by decide, ?_⟩
  · have h1 : Step initState exSendState :=
      Step.send JPC_PAUSE_TOGGLE_ none none initState rfl
    have h2 : Step exSendState exEofState :=
      Step.readEof exSendState (by decide) (by decide)
    exact (Relation.ReflTransGen.single h1).tail h2
  · rintro ⟨s2, hr, hcl⟩
    have hs := eofStuck_reachable s2 hr
    rw [hs.2.2.2] at hcl
    exact absurd hcl (by decide)

/-- Claim C6 amended: on end-of-stream with a command outstanding the
reader loop exits cleanly (`inputMonitor` returns without a fatal
condition), but a subsequent `Close` blocks forever: in every state
reachable from the post-end-of-stream configuration the connection is
still open and the outstanding-count is still positive. -/
theorem c6_eof_reader_exit_close_blocks (s2 : MPVState)
    (h : Relation.ReflTransGen Step exEofState s2) :
    inputMonitor exSendState [ReadEvent.eof] = exEofState ∧
    exEofState.fatal = false ∧
    s2.connClosed = false ∧ 1 ≤ s2.wg := by
  have hs := eofStuck_reachable s2 h
  exact ⟨rfl, by decide, hs.2.2.2, hs.2.2.1⟩

/-- Witness for the amended C6 at the post-end-of-stream state itself. -/
theorem c6_eof_reader_exit_close_blocks_witness :
    Relation.ReflTransGen Step exEofState exEofState ∧
    (inputMonitor exSendState [ReadEvent.eof] = exEofState ∧
      exEofState.fatal = false ∧
      exEofState.connClosed = false ∧ 1 ≤ exEofState.wg) :=
  ⟨Relation.ReflTransGen.refl,
    c6_eof_reader_exit_close_blocks exEofState Relation.ReflTransGen.refl⟩
